import Mathlib

/-!
Shallow embedding of `supabase/functions/slack-oauth-callback/index.ts`,
the single HTTP endpoint of this repository: a Slack OAuth v2 callback
handler that exchanges an authorization code for an access token and
persists the normalized credentials on a `profiles` row.

Modelling decisions (all mirrored from the TypeScript source):
* `Deno.env.get` returns a string or `undefined`; an environment value is
  an `Option String`, and JavaScript truthiness of a string-or-null value
  (`!code`, `!clientId`, `appUrl || default`) is `falsyOpt`: `none` and
  `some ""` are falsy, everything else truthy.
* The parsed provider JSON (`tokenData`) is a record of optional fields;
  a JSON field that is absent or `null` is `none`, so `??` (nullish
  coalescing) is `Option.orElse` (`<|>`).
* The outside world is a `World`: the environment, the provider response
  the token-exchange fetch would yield, the error the database update
  would report (`none` = the update succeeds, possibly matching zero
  rows — PostgREST reports no error for a zero-row update), the
  `profiles` table, and the current timestamp string.
* The handler is a pure function `handle : World → HttpRequest → Outcome`
  returning the HTTP response, the ordered trace of outbound effects
  (token-exchange fetch, database update), and the resulting table.
  Nothing in the modelled body throws, so the source's catch-all
  (`catch` at the bottom of the handler) is unreachable in the model.
-/

namespace SlackCallback

/-- JavaScript falsiness of a string-or-missing value: `null`/`undefined`
and the empty string are falsy. -/
def falsyOpt : Option String → Bool
  | none => true
  | some s => s.isEmpty

/-- The execution environment (`Deno.env`), restricted to the variables
the handler reads. -/
structure Env where
  slack_client_id : Option String
  slack_client_secret : Option String
  supabase_url : Option String
  supabase_service_role_key : Option String
  app_url : Option String
deriving DecidableEq

/-- `tokenData.authed_user` — nested object possibly carrying the token. -/
structure AuthedUser where
  access_token : Option String
deriving DecidableEq

/-- `tokenData.team` — nested object possibly carrying team id and name. -/
structure SlackTeam where
  id : Option String
  name : Option String
deriving DecidableEq

/-- `tokenData.incoming_webhook` — nested object possibly carrying the
webhook url and channel. -/
structure Webhook where
  url : Option String
  channel : Option String
  channel_id : Option String
deriving DecidableEq

/-- The parsed JSON body of the provider's token-exchange response
(`tokenData` in the source). `ok` is the JavaScript truthiness of the
provider's success flag; every other field is optional because the
response shape varies. `error` is the provider's raw error text (only
ever logged by the source, never returned). -/
structure TokenData where
  ok : Bool
  access_token : Option String
  authed_user : Option AuthedUser
  team : Option SlackTeam
  team_id : Option String
  team_name : Option String
  incoming_webhook : Option Webhook
  incoming_webhook_url : Option String
  error : Option String
deriving DecidableEq

/-- One row of the `profiles` table: its primary key `id`, the six
Slack columns the handler writes, and the remaining columns of the row
kept abstract as an association list. -/
structure ProfileRow where
  id : String
  slack_access_token : Option String
  slack_team_id : Option String
  slack_team_name : Option String
  slack_channel : Option String
  slack_webhook_url : Option String
  slack_connected_at : Option String
  otherColumns : List (String × String)
deriving DecidableEq

/-- The inbound HTTP request: its method and the `code` and `state`
query-string parameters (`url.searchParams.get` returns string-or-null). -/
structure HttpRequest where
  method : String
  code : Option String
  state : Option String
deriving DecidableEq

/-- Everything outside the handler: environment, the provider response
the token exchange would produce, the error the database update would
report (`none` when the update succeeds), the `profiles` table, and the
current instant (`new Date().toISOString()`). -/
structure World where
  env : Env
  tokenData : TokenData
  updateError : Option String
  table : List ProfileRow
  now : String
deriving DecidableEq

/-- An HTTP response: status, body (`none` is a null body) and headers. -/
structure HttpResponse where
  status : Nat
  body : Option String
  headers : List (String × String)
deriving DecidableEq

/-- Outbound side effects of one invocation, in the order they are
issued. -/
inductive Effect where
  | tokenExchangeIssued
  | dbUpdateIssued
deriving DecidableEq

/-- Result of one invocation: the response, the ordered effect trace and
the table after the invocation. -/
structure Outcome where
  response : HttpResponse
  effects : List Effect
  table : List ProfileRow
deriving DecidableEq

/-- The `corsHeaders` constant of the source. -/
def corsHeaders : List (String × String) :=
  [("Access-Control-Allow-Origin", "*"),
   ("Access-Control-Allow-Methods", "GET, POST, PUT, DELETE, OPTIONS"),
   ("Access-Control-Allow-Headers", "Content-Type, Authorization, X-Client-Info, Apikey")]

/-- Headers of every JSON response: `{ ...corsHeaders, "Content-Type":
"application/json" }`. -/
def jsonHeaders : List (String × String) :=
  corsHeaders ++ [("Content-Type", "application/json")]

/-- `JSON.stringify({ error: msg })`. -/
def jsonError (msg : String) : String :=
  "\x7b\"error\":\"" ++ msg ++ "\"\x7d"

/-- `JSON.stringify({ error: "Failed to save Slack connection", details:
updateError })`, with `e` the JSON serialization of the database error. -/
def saveErrorBody (e : String) : String :=
  "\x7b\"error\":\"Failed to save Slack connection\",\"details\":" ++ e ++ "\x7d"

/-- Normalization, line 75: `tokenData.access_token ??
tokenData.authed_user?.access_token ?? null`. -/
def normAccessToken (t : TokenData) : Option String :=
  t.access_token <|> t.authed_user.bind AuthedUser.access_token

/-- Normalization, line 76: `tokenData.team?.id ?? tokenData.team_id ?? null`. -/
def normTeamId (t : TokenData) : Option String :=
  t.team.bind SlackTeam.id <|> t.team_id

/-- Normalization, line 77: `tokenData.team?.name ?? tokenData.team_name ?? null`. -/
def normTeamName (t : TokenData) : Option String :=
  t.team.bind SlackTeam.name <|> t.team_name

/-- Normalization, line 78: `tokenData.incoming_webhook?.url ??
tokenData.incoming_webhook_url ?? null`. -/
def normWebhookUrl (t : TokenData) : Option String :=
  t.incoming_webhook.bind Webhook.url <|> t.incoming_webhook_url

/-- Normalization, line 79: `tokenData.incoming_webhook?.channel ??
tokenData.incoming_webhook?.channel_id ?? null`. -/
def normChannel (t : TokenData) : Option String :=
  t.incoming_webhook.bind Webhook.channel <|> t.incoming_webhook.bind Webhook.channel_id

/-- The update payload applied to a matching row (lines 124–131): the six
Slack columns are set, `id` and every other column are untouched. -/
def applySlackUpdate (t : TokenData) (now : String) (r : ProfileRow) : ProfileRow :=
  { r with
    slack_access_token := normAccessToken t
    slack_team_id := normTeamId t
    slack_team_name := normTeamName t
    slack_channel := normChannel t
    slack_webhook_url := normWebhookUrl t
    slack_connected_at := some now }

/-- `supabaseClient.from("profiles").update({...}).eq("id", userId)`:
every row whose `id` equals `userId` receives the payload; no row is
inserted or deleted. -/
def updateProfiles (table : List ProfileRow) (userId : String) (t : TokenData)
    (now : String) : List ProfileRow :=
  table.map (fun r => if r.id = userId then applySlackUpdate t now r else r)

/-- The success page, split at the `${appUrl}` interpolation point of the
template literal (lines 149–169). -/
def htmlPre : String :=
  "\n      <!DOCTYPE html>\n      <html>\n        <head>\n          <title>Slack Connected</title>\n        </head>\n        <body>\n          <h1>Successfully connected to Slack!</h1>\n          <p>You can close this window and return to the app.</p>\n          <script>\n            // Try to close the window\n            window.close();\n\n            // If window doesn\x27t close, redirect after 2 seconds\n            setTimeout(() => \x7b\n              window.location.href = \x27"

/-- The tail of the success page, after the `${appUrl}` interpolation. -/
def htmlPost : String :=
  "\x27;\n            \x7d, 2000);\n          </script>\n        </body>\n      </html>\n    "

/-- The success HTML document with the redirect target spliced in. -/
def successHtml (appUrl : String) : String :=
  htmlPre ++ appUrl ++ htmlPost

/-- `Deno.env.get("APP_URL") || "http://localhost:5173"` (line 146):
JavaScript `||`, so an unset or empty `APP_URL` yields the default. -/
def resolvedAppUrl (env : Env) : String :=
  if falsyOpt env.app_url then "http://localhost:5173" else env.app_url.getD ""

/-- The handler (`Deno.serve` callback), step for step in source order:
OPTIONS short-circuit; `code`/`state` check; `SLACK_CLIENT_ID`/
`SLACK_CLIENT_SECRET` check; token-exchange fetch; `ok` check;
normalization; missing-token check; `SUPABASE_SERVICE_ROLE_KEY` check;
`profiles` update; update-error check; success HTML. -/
def handle (w : World) (req : HttpRequest) : Outcome :=
  if req.method = "OPTIONS" then
    { response := { status := 200, body := none, headers := corsHeaders }
      effects := []
      table := w.table }
  else if falsyOpt req.code || falsyOpt req.state then
    { response := { status := 400
                    body := some (jsonError "Missing code or state parameter")
                    headers := jsonHeaders }
      effects := []
      table := w.table }
  else if falsyOpt w.env.slack_client_id || falsyOpt w.env.slack_client_secret then
    { response := { status := 500
                    body := some (jsonError "Slack OAuth not configured")
                    headers := jsonHeaders }
      effects := []
      table := w.table }
  else if !w.tokenData.ok then
    { response := { status := 400
                    body := some (jsonError "Failed to authenticate with Slack")
                    headers := jsonHeaders }
      effects := [Effect.tokenExchangeIssued]
      table := w.table }
  else if falsyOpt (normAccessToken w.tokenData) then
    { response := { status := 400
                    body := some (jsonError "Slack did not return an access token")
                    headers := jsonHeaders }
      effects := [Effect.tokenExchangeIssued]
      table := w.table }
  else if falsyOpt w.env.supabase_service_role_key then
    { response := { status := 500
                    body := some (jsonError "Server misconfigured: SUPABASE_SERVICE_ROLE_KEY missing")
                    headers := jsonHeaders }
      effects := [Effect.tokenExchangeIssued]
      table := w.table }
  else
    match w.updateError with
    | some e =>
      { response := { status := 500
                      body := some (saveErrorBody e)
                      headers := jsonHeaders }
        effects := [Effect.tokenExchangeIssued, Effect.dbUpdateIssued]
        table := w.table }
    | none =>
      { response := { status := 200
                      body := some (successHtml (resolvedAppUrl w.env))
                      headers := [("Content-Type", "text/html")] }
        effects := [Effect.tokenExchangeIssued, Effect.dbUpdateIssued]
        table := updateProfiles w.table (req.state.getD "") w.tokenData w.now }

/-!
Spec-side restatement of §4.1 step 6 ("Field normalization"), written
from the spec's words — "prefer top-level, fall back to nested, else
null", etc. — to be compared with the definitions translated from the
source.
-/

/-- Spec: "the access token may appear at the top level or nested under
an authenticated-user object — prefer top-level, fall back to nested,
else null". -/
def specAccessToken (t : TokenData) : Option String :=
  match t.access_token with
  | some v => some v
  | none =>
    match t.authed_user with
    | some u =>
      match u.access_token with
      | some v => some v
      | none => none
    | none => none

/-- Spec: "team id may appear nested under a `team` object or as flat
`team_id` — prefer nested", else null. -/
def specTeamId (t : TokenData) : Option String :=
  match t.team with
  | some tm =>
    match tm.id with
    | some v => some v
    | none => t.team_id
  | none => t.team_id

/-- Spec: "team name may appear nested under a `team` object or as flat
`team_name` — prefer nested", else null. -/
def specTeamName (t : TokenData) : Option String :=
  match t.team with
  | some tm =>
    match tm.name with
    | some v => some v
    | none => t.team_name
  | none => t.team_name

/-- Spec: "the webhook URL may appear nested under `incoming_webhook.url`
or as a flat `incoming_webhook_url`", prefer nested, else null. -/
def specWebhookUrl (t : TokenData) : Option String :=
  match t.incoming_webhook with
  | some iw =>
    match iw.url with
    | some v => some v
    | none => t.incoming_webhook_url
  | none => t.incoming_webhook_url

/-- Spec: "the webhook channel may appear as `incoming_webhook.channel`
or `incoming_webhook.channel_id`", prefer the former, else null. -/
def specChannel (t : TokenData) : Option String :=
  match t.incoming_webhook with
  | some iw =>
    match iw.channel with
    | some v => some v
    | none => iw.channel_id
  | none => none

/-!
Concrete fixtures used by the examples below: a fully configured
environment, a request carrying `code` and `state`, one pre-existing
profile row, and the two provider-response shapes of §8 of the spec.
-/

/-- A fully configured environment. -/
def envFull : Env :=
  { slack_client_id := some "cid"
    slack_client_secret := some "csecret"
    supabase_url := some "https://proj.supabase.co"
    supabase_service_role_key := some "srk"
    app_url := some "https://app.example" }

/-- A GET request with `code` and `state` present. -/
def reqOk : HttpRequest :=
  { method := "GET", code := some "authcode", state := some "user-1" }

/-- A pre-existing profile row for the user named by `state`, with one
column the handler does not own. -/
def rowUser1 : ProfileRow :=
  { id := "user-1"
    slack_access_token := none
    slack_team_id := none
    slack_team_name := none
    slack_channel := none
    slack_webhook_url := none
    slack_connected_at := none
    otherColumns := [("display_name", "Ana")] }

/-- Modern-shaped provider response: nested `team` and
`incoming_webhook` objects, top-level `access_token`. -/
def tdModern : TokenData :=
  { ok := true
    access_token := some "xoxb-1"
    authed_user := none
    team := some { id := some "T1", name := some "Acme" }
    team_id := none
    team_name := none
    incoming_webhook := some { url := some "https://hooks/abc", channel := some "#general", channel_id := none }
    incoming_webhook_url := none
    error := none }

/-- Legacy-shaped provider response: nested `authed_user` token, flat
`team_id`/`team_name`/`incoming_webhook_url`, no `incoming_webhook`. -/
def tdLegacy : TokenData :=
  { ok := true
    access_token := none
    authed_user := some { access_token := some "xoxp-2" }
    team := none
    team_id := some "T2"
    team_name := some "Old"
    incoming_webhook := none
    incoming_webhook_url := some "https://hooks/xyz"
    error := none }

/-- World for the modern-shaped end-to-end example. -/
def worldModern : World :=
  { env := envFull
    tokenData := tdModern
    updateError := none
    table := [rowUser1]
    now := "2026-01-01T00:00:00.000Z" }

/-- World for the legacy-shaped end-to-end example. -/
def worldLegacy : World :=
  { env := envFull
    tokenData := tdLegacy
    updateError := none
    table := [rowUser1]
    now := "2026-01-01T00:00:00.000Z" }

lemma normAccessToken_eq_spec (t : TokenData) : normAccessToken t = specAccessToken t := by
  rcases t with ⟨ok, atk, au, tm, tid, tnm, iw, iwu, er⟩
  cases atk with
  | some v => rfl
  | none =>
    cases au with
    | none => rfl
    | some u =>
      rcases u with ⟨uatk⟩
      cases uatk <;> rfl

lemma normTeamId_eq_spec (t : TokenData) : normTeamId t = specTeamId t := by
  rcases t with ⟨ok, atk, au, tm, tid, tnm, iw, iwu, er⟩
  cases tm with
  | none => rfl
  | some team =>
    rcases team with ⟨i, n⟩
    cases i <;> rfl

lemma normTeamName_eq_spec (t : TokenData) : normTeamName t = specTeamName t := by
  rcases t with ⟨ok, atk, au, tm, tid, tnm, iw, iwu, er⟩
  cases tm with
  | none => rfl
  | some team =>
    rcases team with ⟨i, n⟩
    cases n <;> rfl

lemma normWebhookUrl_eq_spec (t : TokenData) : normWebhookUrl t = specWebhookUrl t := by
  rcases t with ⟨ok, atk, au, tm, tid, tnm, iw, iwu, er⟩
  cases iw with
  | none => rfl
  | some wh =>
    rcases wh with ⟨u, c, ci⟩
    cases u <;> rfl

lemma normChannel_eq_spec (t : TokenData) : normChannel t = specChannel t := by
  rcases t with ⟨ok, atk, au, tm, tid, tnm, iw, iwu, er⟩
  cases iw with
  | none => rfl
  | some wh =>
    rcases wh with ⟨u, c, ci⟩
    cases c <;> rfl

/-- C2: on every provider response the persisted fields follow the
two-tier extraction rules of the spec (top-level `access_token` before
`authed_user.access_token`; `team.id`/`team.name` before flat
`team_id`/`team_name`; `incoming_webhook.url` before flat
`incoming_webhook_url`; `incoming_webhook.channel` before
`incoming_webhook.channel_id`; `null` when neither is present), and the
two end-to-end examples write exactly the rows the spec lists: the
modern shape persists `xoxb-1`/`T1`/`Acme`/`#general`/`https://hooks/abc`,
the legacy shape persists `xoxp-2`/`T2`/`Old`/`https://hooks/xyz` with a
null `slack_channel`. -/
theorem normalization_follows_spec :
    (∀ t, normAccessToken t = specAccessToken t) ∧
    (∀ t, normTeamId t = specTeamId t) ∧
    (∀ t, normTeamName t = specTeamName t) ∧
    (∀ t, normWebhookUrl t = specWebhookUrl t) ∧
    (∀ t, normChannel t = specChannel t) ∧
    (handle worldModern reqOk).table =
      [{ id := "user-1"
         slack_access_token := some "xoxb-1"
         slack_team_id := some "T1"
         slack_team_name := some "Acme"
         slack_channel := some "#general"
         slack_webhook_url := some "https://hooks/abc"
         slack_connected_at := some "2026-01-01T00:00:00.000Z"
         otherColumns := [("display_name", "Ana")] }] ∧
    (handle worldLegacy reqOk).table =
      [{ id := "user-1"
         slack_access_token := some "xoxp-2"
         slack_team_id := some "T2"
         slack_team_name := some "Old"
         slack_channel := none
         slack_webhook_url := some "https://hooks/xyz"
         slack_connected_at := some "2026-01-01T00:00:00.000Z"
         otherColumns := [("display_name", "Ana")] }] :=
  ⟨normAccessToken_eq_spec, normTeamId_eq_spec, normTeamName_eq_spec,
   normWebhookUrl_eq_spec, normChannel_eq_spec, by decide, by decide⟩

/-- World with both Slack OAuth credentials set but no
`SUPABASE_SERVICE_ROLE_KEY`, and a successful provider response. -/
def worldNoServiceKey : World :=
  { env := { envFull with supabase_service_role_key := none }
    tokenData := tdModern
    updateError := none
    table := [rowUser1]
    now := "2026-01-01T00:00:00.000Z" }

/-- C1 counterexample: with `code` and `state` present, `SLACK_CLIENT_ID`
and `SLACK_CLIENT_SECRET` set and `SUPABASE_SERVICE_ROLE_KEY` missing,
the handler does issue the outbound token-exchange request before
responding 500 — the service-role-key check (source line 102) sits after
the token-exchange fetch (source line 48), so configuration validation
does not strictly precede the token exchange. -/
theorem serviceKey_check_after_exchange_cex :
    worldNoServiceKey.env.slack_client_id = some "cid" ∧
    worldNoServiceKey.env.slack_client_secret = some "csecret" ∧
    worldNoServiceKey.env.supabase_service_role_key = none ∧
    reqOk.code = some "authcode" ∧
    reqOk.state = some "user-1" ∧
    (handle worldNoServiceKey reqOk).response.status = 500 ∧
    (handle worldNoServiceKey reqOk).response.body =
      some (jsonError "Server misconfigured: SUPABASE_SERVICE_ROLE_KEY missing") ∧
    (handle worldNoServiceKey reqOk).effects = [Effect.tokenExchangeIssued] := by
  decide

/-- C1 (amended): with `code` and `state` present, the Slack OAuth
credentials set and `SUPABASE_SERVICE_ROLE_KEY` missing, *and* the
provider response ok with a resolvable access token, the handler
responds 500 with `{"error":"Server misconfigured:
SUPABASE_SERVICE_ROLE_KEY missing"}` and performs no profile write —
but the outbound token-exchange request has already been issued: in the
handler's step order the token exchange precedes the service-role-key
configuration check. -/
theorem misconfig_500_after_exchange (w : World) (req : HttpRequest)
    (hm : req.method ≠ "OPTIONS")
    (hc : falsyOpt req.code = false)
    (hs : falsyOpt req.state = false)
    (hid : falsyOpt w.env.slack_client_id = false)
    (hsec : falsyOpt w.env.slack_client_secret = false)
    (hok : w.tokenData.ok = true)
    (htok : falsyOpt (normAccessToken w.tokenData) = false)
    (hkey : falsyOpt w.env.supabase_service_role_key = true) :
    (handle w req).response.status = 500 ∧
    (handle w req).response.body =
      some (jsonError "Server misconfigured: SUPABASE_SERVICE_ROLE_KEY missing") ∧
    (handle w req).effects = [Effect.tokenExchangeIssued] ∧
    Effect.dbUpdateIssued ∉ (handle w req).effects ∧
    (handle w req).table = w.table := by
  simp [handle, hm, hc, hs, hid, hsec, hok, htok, hkey]

/-- Witness for the amended C1 at a concrete world. -/
theorem misconfig_500_after_exchange_witness :
    (handle worldNoServiceKey reqOk).response.status = 500 ∧
    (handle worldNoServiceKey reqOk).response.body =
      some (jsonError "Server misconfigured: SUPABASE_SERVICE_ROLE_KEY missing") ∧
    (handle worldNoServiceKey reqOk).effects = [Effect.tokenExchangeIssued] ∧
    Effect.dbUpdateIssued ∉ (handle worldNoServiceKey reqOk).effects ∧
    (handle worldNoServiceKey reqOk).table = worldNoServiceKey.table :=
  misconfig_500_after_exchange worldNoServiceKey reqOk (by decide) (by decide)
    (by decide) (by decide) (by decide) (by decide) (by decide) (by decide)

/-- C3: any non-OPTIONS request missing `code` or missing `state` gets
status 400 with body exactly `{"error":"Missing code or state
parameter"}` (JSON headers attached), no outbound effect at all — no
token exchange, no profile write — and an unchanged table. -/
theorem missing_params_400 (w : World) (req : HttpRequest)
    (hm : req.method ≠ "OPTIONS")
    (h : req.code = none ∨ req.state = none) :
    (handle w req).response =
      { status := 400
        body := some (jsonError "Missing code or state parameter")
        headers := jsonHeaders } ∧
    (handle w req).effects = [] ∧
    (handle w req).table = w.table := by
  rcases h with h | h <;> simp [handle, hm, h, falsyOpt]

/-- Witness for C3 at a concrete request missing `code`. -/
theorem missing_params_400_witness :
    (handle worldModern { method := "GET", code := none, state := some "user-1" }).response =
      { status := 400
        body := some (jsonError "Missing code or state parameter")
        headers := jsonHeaders } ∧
    (handle worldModern { method := "GET", code := none, state := some "user-1" }).effects = [] ∧
    (handle worldModern { method := "GET", code := none, state := some "user-1" }).table =
      worldModern.table :=
  missing_params_400 worldModern { method := "GET", code := none, state := some "user-1" }
    (by decide) (Or.inl rfl)

/-- World whose provider response is `{ok: false, error: "invalid_code"}`. -/
def worldProviderNotOk : World :=
  { env := envFull
    tokenData :=
      { ok := false
        access_token := none
        authed_user := none
        team := none
        team_id := none
        team_name := none
        incoming_webhook := none
        incoming_webhook_url := none
        error := some "invalid_code" }
    updateError := none
    table := [rowUser1]
    now := "2026-01-01T00:00:00.000Z" }

/-- C4: whenever the provider's `ok` flag is falsy — whatever the rest of
the payload, including its `error` text — the response is exactly status
400 with body `{"error":"Failed to authenticate with Slack"}` and JSON
headers; the body is this fixed constant, so no part of the provider
payload appears in it (in particular `invalid_code` is not a substring of
it), and no profile write occurs. -/
theorem provider_not_ok_400 (w : World) (req : HttpRequest)
    (hm : req.method ≠ "OPTIONS")
    (hc : falsyOpt req.code = false)
    (hs : falsyOpt req.state = false)
    (hid : falsyOpt w.env.slack_client_id = false)
    (hsec : falsyOpt w.env.slack_client_secret = false)
    (hok : w.tokenData.ok = false) :
    (handle w req).response =
      { status := 400
        body := some (jsonError "Failed to authenticate with Slack")
        headers := jsonHeaders } ∧
    (handle w req).effects = [Effect.tokenExchangeIssued] ∧
    Effect.dbUpdateIssued ∉ (handle w req).effects ∧
    (handle w req).table = w.table ∧
    ¬ ("invalid_code".data <:+: (jsonError "Failed to authenticate with Slack").data) := by
  refine ⟨?_, ?_, ?_, ?_, by decide⟩ <;>
    simp [handle, hm, hc, hs, hid, hsec, hok]

/-- Witness for C4 at the concrete payload `{ok: false, error:
"invalid_code"}`. -/
theorem provider_not_ok_400_witness :
    (handle worldProviderNotOk reqOk).response =
      { status := 400
        body := some (jsonError "Failed to authenticate with Slack")
        headers := jsonHeaders } ∧
    (handle worldProviderNotOk reqOk).effects = [Effect.tokenExchangeIssued] ∧
    Effect.dbUpdateIssued ∉ (handle worldProviderNotOk reqOk).effects ∧
    (handle worldProviderNotOk reqOk).table = worldProviderNotOk.table ∧
    ¬ ("invalid_code".data <:+: (jsonError "Failed to authenticate with Slack").data) :=
  provider_not_ok_400 worldProviderNotOk reqOk (by decide) (by decide) (by decide)
    (by decide) (by decide) (by decide)

/-- World whose provider response is ok but carries no access token in
either location. -/
def worldNoToken : World :=
  { env := envFull
    tokenData :=
      { ok := true
        access_token := none
        authed_user := none
        team := some { id := some "T1", name := some "Acme" }
        team_id := none
        team_name := none
        incoming_webhook := none
        incoming_webhook_url := none
        error := none }
    updateError := none
    table := [rowUser1]
    now := "2026-01-01T00:00:00.000Z" }

/-- C5: a provider response with a truthy `ok` flag but no top-level
`access_token` and no `authed_user.access_token` — so normalization
resolves no token — yields status 400 with body `{"error":"Slack did
not return an access token"}`, and no profile write occurs. -/
theorem no_token_400 (w : World) (req : HttpRequest)
    (hm : req.method ≠ "OPTIONS")
    (hc : falsyOpt req.code = false)
    (hs : falsyOpt req.state = false)
    (hid : falsyOpt w.env.slack_client_id = false)
    (hsec : falsyOpt w.env.slack_client_secret = false)
    (hok : w.tokenData.ok = true)
    (htok : normAccessToken w.tokenData = none) :
    (handle w req).response =
      { status := 400
        body := some (jsonError "Slack did not return an access token")
        headers := jsonHeaders } ∧
    Effect.dbUpdateIssued ∉ (handle w req).effects ∧
    (handle w req).table = w.table := by
  have htok' : falsyOpt (normAccessToken w.tokenData) = true := by rw [htok]; rfl
  simp [handle, hm, hc, hs, hid, hsec, hok, htok']

/-- Witness for C5 at a concrete token-free ok response. -/
theorem no_token_400_witness :
    (handle worldNoToken reqOk).response =
      { status := 400
        body := some (jsonError "Slack did not return an access token")
        headers := jsonHeaders } ∧
    Effect.dbUpdateIssued ∉ (handle worldNoToken reqOk).effects ∧
    (handle worldNoToken reqOk).table = worldNoToken.table :=
  no_token_400 worldNoToken reqOk (by decide) (by decide) (by decide) (by decide)
    (by decide) (by decide) (by decide)

/-- `htmlPre` up to (excluding) `window.close();`. -/
def htmlPreA : String :=
  "\n      <!DOCTYPE html>\n      <html>\n        <head>\n          <title>Slack Connected</title>\n        </head>\n        <body>\n          <h1>Successfully connected to Slack!</h1>\n          <p>You can close this window and return to the app.</p>\n          <script>\n            // Try to close the window\n            "

/-- `htmlPre` after `window.close();`. -/
def htmlPreB : String :=
  "\n\n            // If window doesn\x27t close, redirect after 2 seconds\n            setTimeout(() => \x7b\n              window.location.href = \x27"

/-- `htmlPre` up to (excluding) the final `window.location.href = '`. -/
def htmlPreC : String :=
  "\n      <!DOCTYPE html>\n      <html>\n        <head>\n          <title>Slack Connected</title>\n        </head>\n        <body>\n          <h1>Successfully connected to Slack!</h1>\n          <p>You can close this window and return to the app.</p>\n          <script>\n            // Try to close the window\n            window.close();\n\n            // If window doesn\x27t close, redirect after 2 seconds\n            setTimeout(() => \x7b\n              "

/-- `htmlPost` after its leading closing quote. -/
def htmlPostRest : String :=
  ";\n            \x7d, 2000);\n          </script>\n        </body>\n      </html>\n    "

set_option maxRecDepth 8192 in
lemma htmlPre_data_split_close :
    htmlPre.data = htmlPreA.data ++ ("window.close();" : String).data ++ htmlPreB.data := by
  decide

set_option maxRecDepth 8192 in
lemma htmlPre_data_split_href :
    htmlPre.data = htmlPreC.data ++ ("window.location.href = \x27" : String).data := by
  decide

lemma htmlPost_data_split :
    htmlPost.data = ("\x27" : String).data ++ htmlPostRest.data := by
  decide

lemma successHtml_contains_close (u : String) :
    ∃ s t, successHtml u = s ++ "window.close();" ++ t := by
  refine ⟨htmlPreA, htmlPreB ++ u ++ htmlPost, String.ext ?_⟩
  simp only [successHtml, String.data_append, htmlPre_data_split_close, List.append_assoc,
    List.cons_append, List.nil_append]

lemma successHtml_contains_redirect (u : String) :
    ∃ s t, successHtml u = s ++ ("window.location.href = \x27" ++ u ++ "\x27") ++ t := by
  refine ⟨htmlPreC, htmlPostRest, String.ext ?_⟩
  simp only [successHtml, String.data_append, htmlPre_data_split_href, htmlPost_data_split,
    List.append_assoc, List.cons_append, List.nil_append]

lemma saveErrorBody_head (e : String) : (saveErrorBody e).data.head? = some '\x7b' := rfl

lemma successHtml_head (u : String) : (successHtml u).data.head? = some '\n' := rfl

/-- The persistence-failure JSON body is never the success HTML page:
they already differ at their first character. -/
lemma saveErrorBody_ne_successHtml (e u : String) : saveErrorBody e ≠ successHtml u := by
  intro h
  have h1 : (saveErrorBody e).data.head? = (successHtml u).data.head? := by rw [h]
  rw [saveErrorBody_head, successHtml_head] at h1
  exact absurd h1 (by decide)

lemma saveErrorBody_data_split :
    ("\x7b\"error\":\"Failed to save Slack connection\",\"details\":" : String).data =
      ("\x7b\"error\":\"" : String).data ++ ("Failed to save Slack connection" : String).data ++
        ("\",\"details\":" : String).data := by
  decide

lemma saveErrorBody_msg_split (e : String) :
    saveErrorBody e =
      "\x7b\"error\":\"" ++ "Failed to save Slack connection" ++
        ("\",\"details\":" ++ e ++ "\x7d") := by
  refine String.ext ?_
  simp only [saveErrorBody, String.data_append, saveErrorBody_data_split, List.append_assoc,
    List.cons_append, List.nil_append]

/-- World whose database update reports an error. -/
def worldUpdateError : World :=
  { env := envFull
    tokenData := tdModern
    updateError := some "\x7b\"message\":\"db down\"\x7d"
    table := [rowUser1]
    now := "2026-01-01T00:00:00.000Z" }

/-- C6: when the database update reports an error `e`, the response is
status 500 with JSON headers and body `{"error":"Failed to save Slack
connection","details":<e>}` — a body that contains both the message
`Failed to save Slack connection` and the underlying error as its
`details` field — and no success HTML page is returned (the body is
never `successHtml` and the status is not 200). -/
theorem update_error_500 (w : World) (req : HttpRequest)
    (hm : req.method ≠ "OPTIONS")
    (hc : falsyOpt req.code = false)
    (hs : falsyOpt req.state = false)
    (hid : falsyOpt w.env.slack_client_id = false)
    (hsec : falsyOpt w.env.slack_client_secret = false)
    (hok : w.tokenData.ok = true)
    (htok : falsyOpt (normAccessToken w.tokenData) = false)
    (hkey : falsyOpt w.env.supabase_service_role_key = false)
    (e : String) (he : w.updateError = some e) :
    (handle w req).response.status = 500 ∧
    (handle w req).response.body = some (saveErrorBody e) ∧
    (handle w req).response.headers = jsonHeaders ∧
    (∃ s t, saveErrorBody e = s ++ "Failed to save Slack connection" ++ t) ∧
    (∃ s t, saveErrorBody e = s ++ e ++ t) ∧
    (∀ u, (handle w req).response.body ≠ some (successHtml u)) ∧
    (handle w req).response.status ≠ 200 := by
  have hh : (handle w req).response =
      { status := 500, body := some (saveErrorBody e), headers := jsonHeaders } := by
    simp [handle, hm, hc, hs, hid, hsec, hok, htok, hkey, he]
  refine ⟨by rw [hh], by rw [hh], by rw [hh], ?_, ?_, ?_, by rw [hh]; simp⟩
  · exact ⟨"\x7b\"error\":\"", "\",\"details\":" ++ e ++ "\x7d", saveErrorBody_msg_split e⟩
  · exact ⟨"\x7b\"error\":\"Failed to save Slack connection\",\"details\":", "\x7d", rfl⟩
  · intro u hu
    rw [hh] at hu
    exact saveErrorBody_ne_successHtml e u (Option.some.inj hu)

/-- Witness for C6 at a concrete failing update. -/
theorem update_error_500_witness :
    (handle worldUpdateError reqOk).response.status = 500 ∧
    (handle worldUpdateError reqOk).response.body =
      some (saveErrorBody "\x7b\"message\":\"db down\"\x7d") ∧
    (handle worldUpdateError reqOk).response.headers = jsonHeaders ∧
    (∃ s t, saveErrorBody "\x7b\"message\":\"db down\"\x7d" =
      s ++ "Failed to save Slack connection" ++ t) ∧
    (∃ s t, saveErrorBody "\x7b\"message\":\"db down\"\x7d" =
      s ++ "\x7b\"message\":\"db down\"\x7d" ++ t) ∧
    (∀ u, (handle worldUpdateError reqOk).response.body ≠ some (successHtml u)) ∧
    (handle worldUpdateError reqOk).response.status ≠ 200 :=
  update_error_500 worldUpdateError reqOk (by decide) (by decide) (by decide)
    (by decide) (by decide) (by decide) (by decide) (by decide)
    "\x7b\"message\":\"db down\"\x7d" (by decide)

/-- World identical to the modern success world except that `APP_URL` is
set to the empty string. -/
def worldEmptyAppUrl : World :=
  { env := { envFull with app_url := some "" }
    tokenData := tdModern
    updateError := none
    table := [rowUser1]
    now := "2026-01-01T00:00:00.000Z" }

set_option maxRecDepth 8192 in
/-- C7 counterexample: `APP_URL` is *set* (to the empty string), yet the
success page's redirect target is `http://localhost:5173`, not the
`APP_URL` value — the source uses JavaScript `||`, which treats an empty
`APP_URL` like an unset one, while the claim promises the default only
when `APP_URL` is unset. -/
theorem empty_app_url_cex :
    worldEmptyAppUrl.env.app_url = some "" ∧
    (handle worldEmptyAppUrl reqOk).response.status = 200 ∧
    (handle worldEmptyAppUrl reqOk).response.body =
      some (successHtml "http://localhost:5173") ∧
    successHtml "http://localhost:5173" ≠ successHtml "" := by
  decide

/-- C7 (amended): a fully successful run returns status 200 with
Content-Type `text/html` and a body that is the success page: it
contains a `window.close();` script and a timed-redirect fallback whose
target URL equals the `APP_URL` environment value when `APP_URL` is set
and non-empty, and `http://localhost:5173` when `APP_URL` is unset *or
empty*. -/
theorem success_html_200 (w : World) (req : HttpRequest)
    (hm : req.method ≠ "OPTIONS")
    (hc : falsyOpt req.code = false)
    (hs : falsyOpt req.state = false)
    (hid : falsyOpt w.env.slack_client_id = false)
    (hsec : falsyOpt w.env.slack_client_secret = false)
    (hok : w.tokenData.ok = true)
    (htok : falsyOpt (normAccessToken w.tokenData) = false)
    (hkey : falsyOpt w.env.supabase_service_role_key = false)
    (hue : w.updateError = none) :
    (handle w req).response.status = 200 ∧
    (handle w req).response.headers = [("Content-Type", "text/html")] ∧
    (handle w req).response.body = some (successHtml (resolvedAppUrl w.env)) ∧
    (∃ s t, successHtml (resolvedAppUrl w.env) = s ++ "window.close();" ++ t) ∧
    (∃ s t, successHtml (resolvedAppUrl w.env) =
      s ++ ("window.location.href = \x27" ++ resolvedAppUrl w.env ++ "\x27") ++ t) ∧
    (w.env.app_url = none → resolvedAppUrl w.env = "http://localhost:5173") ∧
    (w.env.app_url = some "" → resolvedAppUrl w.env = "http://localhost:5173") ∧
    (∀ s, w.env.app_url = some s → s ≠ "" → resolvedAppUrl w.env = s) := by
  have hh : (handle w req).response =
      { status := 200
        body := some (successHtml (resolvedAppUrl w.env))
        headers := [("Content-Type", "text/html")] } := by
    simp [handle, hm, hc, hs, hid, hsec, hok, htok, hkey, hue]
  refine ⟨by rw [hh], by rw [hh], by rw [hh],
    successHtml_contains_close _, successHtml_contains_redirect _, ?_, ?_, ?_⟩
  · intro h
    simp [resolvedAppUrl, h, falsyOpt]
  · intro h
    have hT : falsyOpt (some "") = true := rfl
    simp [resolvedAppUrl, h, hT]
  · intro s h hne
    have hf : falsyOpt (some s) = false := by
      cases hcase : s.isEmpty with
      | false => exact hcase
      | true => exact absurd ((String.isEmpty_iff s).mp hcase) hne
    simp [resolvedAppUrl, h, hf]

/-- Witness for the amended C7 at a concrete success world with a
non-empty `APP_URL`. -/
theorem success_html_200_witness :
    (handle worldModern reqOk).response.status = 200 ∧
    (handle worldModern reqOk).response.headers = [("Content-Type", "text/html")] ∧
    (handle worldModern reqOk).response.body =
      some (successHtml (resolvedAppUrl worldModern.env)) ∧
    (∃ s t, successHtml (resolvedAppUrl worldModern.env) = s ++ "window.close();" ++ t) ∧
    (∃ s t, successHtml (resolvedAppUrl worldModern.env) =
      s ++ ("window.location.href = \x27" ++ resolvedAppUrl worldModern.env ++ "\x27") ++ t) ∧
    (worldModern.env.app_url = none → resolvedAppUrl worldModern.env = "http://localhost:5173") ∧
    (worldModern.env.app_url = some "" → resolvedAppUrl worldModern.env = "http://localhost:5173") ∧
    (∀ s, worldModern.env.app_url = some s → s ≠ "" → resolvedAppUrl worldModern.env = s) :=
  success_html_200 worldModern reqOk (by decide) (by decide) (by decide) (by decide)
    (by decide) (by decide) (by decide) (by decide) (by decide)

/-- C8: an OPTIONS request short-circuits before all other logic: status
200, null body, exactly the three CORS headers (wildcard origin;
GET, POST, PUT, DELETE, OPTIONS; Content-Type, Authorization,
X-Client-Info, Apikey), no outbound effect, no table change — whatever
the query parameters, environment, provider response or table. -/
theorem options_preflight (w : World) (req : HttpRequest)
    (hm : req.method = "OPTIONS") :
    handle w req =
      { response := { status := 200, body := none, headers := corsHeaders }
        effects := []
        table := w.table } ∧
    corsHeaders =
      [("Access-Control-Allow-Origin", "*"),
       ("Access-Control-Allow-Methods", "GET, POST, PUT, DELETE, OPTIONS"),
       ("Access-Control-Allow-Headers", "Content-Type, Authorization, X-Client-Info, Apikey")] :=
  ⟨by simp [handle, hm], rfl⟩

/-- Witness for C8 at a concrete OPTIONS request with no parameters and
a deliberately unconfigured environment. -/
theorem options_preflight_witness :
    handle worldNoServiceKey { method := "OPTIONS", code := none, state := none } =
      { response := { status := 200, body := none, headers := corsHeaders }
        effects := []
        table := worldNoServiceKey.table } ∧
    corsHeaders =
      [("Access-Control-Allow-Origin", "*"),
       ("Access-Control-Allow-Methods", "GET, POST, PUT, DELETE, OPTIONS"),
       ("Access-Control-Allow-Headers", "Content-Type, Authorization, X-Client-Info, Apikey")] :=
  options_preflight worldNoServiceKey { method := "OPTIONS", code := none, state := none } rfl

/-- On every path the table is either untouched or the result of the
single `profiles` update keyed on the `state` value. -/
lemma handle_table_cases (w : World) (req : HttpRequest) :
    (handle w req).table = w.table ∨
    (handle w req).table = updateProfiles w.table (req.state.getD "") w.tokenData w.now := by
  unfold handle
  split
  · exact Or.inl rfl
  split
  · exact Or.inl rfl
  split
  · exact Or.inl rfl
  split
  · exact Or.inl rfl
  split
  · exact Or.inl rfl
  split
  · exact Or.inl rfl
  split
  · exact Or.inl rfl
  · exact Or.inr rfl

lemma updateProfiles_length (table : List ProfileRow) (uid : String) (t : TokenData)
    (now : String) : (updateProfiles table uid t now).length = table.length := by
  simp [updateProfiles]

lemma updateProfiles_getElem? (table : List ProfileRow) (uid : String) (t : TokenData)
    (now : String) (i : Nat) :
    (updateProfiles table uid t now)[i]? =
      table[i]?.map (fun r => if r.id = uid then applySlackUpdate t now r else r) := by
  simp [updateProfiles, List.getElem?_map]

/-- C9: frame property of the handler on the `profiles` table. On every
code path the table keeps its length (no row is ever inserted or
deleted); a row whose `id` differs from the `state` value is returned
unchanged; and even a matching row keeps its `id` and all columns other
than the six Slack columns (`slack_access_token`, `slack_team_id`,
`slack_team_name`, `slack_channel`, `slack_webhook_url`,
`slack_connected_at`). -/
theorem profiles_update_frame (w : World) (req : HttpRequest) (i : Nat)
    (r r' : ProfileRow)
    (h1 : w.table[i]? = some r)
    (h2 : (handle w req).table[i]? = some r') :
    (handle w req).table.length = w.table.length ∧
    (r.id ≠ req.state.getD "" → r' = r) ∧
    r'.id = r.id ∧
    r'.otherColumns = r.otherColumns := by
  rcases handle_table_cases w req with he | he
  · rw [he] at h2
    rw [h1] at h2
    obtain rfl : r = r' := Option.some.inj h2
    exact ⟨by rw [he], fun _ => rfl, rfl, rfl⟩
  · rw [he] at h2 ⊢
    rw [updateProfiles_getElem?, h1] at h2
    have h3 : (if r.id = req.state.getD "" then applySlackUpdate w.tokenData w.now r else r) = r' :=
      Option.some.inj h2
    refine ⟨updateProfiles_length _ _ _ _, ?_, ?_, ?_⟩
    · intro hne
      rw [if_neg hne] at h3
      exact h3.symm
    · by_cases hidm : r.id = req.state.getD ""
      · rw [if_pos hidm] at h3
        rw [← h3]
        rfl
      · rw [if_neg hidm] at h3
        rw [← h3]
    · by_cases hidm : r.id = req.state.getD ""
      · rw [if_pos hidm] at h3
        rw [← h3]
        rfl
      · rw [if_neg hidm] at h3
        rw [← h3]

/-- Witness for C9 at a concrete world (provider rejection path: the
table passes through unchanged). -/
theorem profiles_update_frame_witness :
    (handle worldProviderNotOk reqOk).table.length = worldProviderNotOk.table.length ∧
    (rowUser1.id ≠ reqOk.state.getD "" → rowUser1 = rowUser1) ∧
    rowUser1.id = rowUser1.id ∧
    rowUser1.otherColumns = rowUser1.otherColumns :=
  profiles_update_frame worldProviderNotOk reqOk 0 rowUser1 rowUser1 (by decide) (by decide)

lemma updateProfiles_no_match (table : List ProfileRow) (uid : String) (t : TokenData)
    (now : String) (h : ∀ r ∈ table, r.id ≠ uid) :
    updateProfiles table uid t now = table := by
  induction table with
  | nil => rfl
  | cons a l ih =>
    have ha : a.id ≠ uid := h a (List.mem_cons_self a l)
    have hl : ∀ r ∈ l, r.id ≠ uid := fun r hr => h r (List.mem_cons_of_mem a hr)
    have htail := ih hl
    unfold updateProfiles
    unfold updateProfiles at htail
    simp only [List.map_cons]
    rw [if_neg ha, htail]

/-- A profile row that does not belong to the requesting `state`. -/
def rowOther : ProfileRow :=
  { id := "user-2"
    slack_access_token := none
    slack_team_id := none
    slack_team_name := none
    slack_channel := none
    slack_webhook_url := none
    slack_connected_at := none
    otherColumns := [] }

/-- Success world whose table holds no row with `id` equal to the
`state` value. -/
def worldNoMatch : World :=
  { env := envFull
    tokenData := tdModern
    updateError := none
    table := [rowOther]
    now := "2026-01-01T00:00:00.000Z" }

/-- C10 (implicit): the success branch depends only on the update
reporting no error, not on a row having been matched. When no profile
row has `id` equal to the `state` value, the update is still issued,
matches zero rows, reports no error, the table is left exactly as it
was — no credentials are persisted anywhere — and the handler still
returns the 200 `text/html` success page. -/
theorem zero_row_match_success (w : World) (req : HttpRequest)
    (hm : req.method ≠ "OPTIONS")
    (hc : falsyOpt req.code = false)
    (hs : falsyOpt req.state = false)
    (hid : falsyOpt w.env.slack_client_id = false)
    (hsec : falsyOpt w.env.slack_client_secret = false)
    (hok : w.tokenData.ok = true)
    (htok : falsyOpt (normAccessToken w.tokenData) = false)
    (hkey : falsyOpt w.env.supabase_service_role_key = false)
    (hue : w.updateError = none)
    (hmiss : ∀ r ∈ w.table, r.id ≠ req.state.getD "") :
    (handle w req).response.status = 200 ∧
    (handle w req).response.headers = [("Content-Type", "text/html")] ∧
    (handle w req).response.body = some (successHtml (resolvedAppUrl w.env)) ∧
    Effect.dbUpdateIssued ∈ (handle w req).effects ∧
    (handle w req).table = w.table := by
  have hh : handle w req =
      { response :=
          { status := 200
            body := some (successHtml (resolvedAppUrl w.env))
            headers := [("Content-Type", "text/html")] }
        effects := [Effect.tokenExchangeIssued, Effect.dbUpdateIssued]
        table := updateProfiles w.table (req.state.getD "") w.tokenData w.now } := by
    simp [handle, hm, hc, hs, hid, hsec, hok, htok, hkey, hue]
  rw [hh]
  exact ⟨rfl, rfl, rfl, by simp, updateProfiles_no_match _ _ _ _ hmiss⟩

/-- Witness for C10 at a concrete world whose only row belongs to a
different user. -/
theorem zero_row_match_success_witness :
    (handle worldNoMatch reqOk).response.status = 200 ∧
    (handle worldNoMatch reqOk).response.headers = [("Content-Type", "text/html")] ∧
    (handle worldNoMatch reqOk).response.body =
      some (successHtml (resolvedAppUrl worldNoMatch.env)) ∧
    Effect.dbUpdateIssued ∈ (handle worldNoMatch reqOk).effects ∧
    (handle worldNoMatch reqOk).table = worldNoMatch.table :=
  zero_row_match_success worldNoMatch reqOk (by decide) (by decide) (by decide)
    (by decide) (by decide) (by decide) (by decide) (by decide) (by decide)
    (by decide)

end SlackCallback
